import Mathlib

/-!
Verification development for the DailySNEC court-case scraping pipeline.

The core under study lives in `src/util.py` (`parse_case_info`,
`get_next_n_cases`, `get_bounced_cases`).  Machinery external to the core
(MongoDB, polars, the browser) is modelled by passing its data explicitly:
the aggregation result becomes a list of checkpoints, `date.today()` becomes
explicit `today` parameters, and a Python exception aborting the computation
becomes an `Option` result of `none`.

Python string/number primitives used by the source (`str.split`, `int(...)`,
`str(...)`, `str.zfill`, substring `in`) are embedded below as executable
functions on `List Char` / `String`.
-/

/-! ### Python string and number primitives -/

/-- Whitespace characters recognised by Python's `str.split()` (ASCII part). -/
def isSpaceChar (c : Char) : Bool :=
  c == ' ' || c == '\t' || c == '\n' || c == '\r' || c == '\x0b' || c == '\x0c'

/-- ASCII decimal digit test, as used by `int(...)` on ASCII input. -/
def isDigitChar (c : Char) : Bool :=
  48 ≤ c.toNat && c.toNat ≤ 57

/-- The character for a decimal digit value. -/
def digitChar (d : Nat) : Char := Char.ofNat (48 + d)

/-- Value of a string of ASCII digits, most significant first. -/
def digitsToNat (l : List Char) : Nat :=
  l.foldl (fun acc c => acc * 10 + (c.toNat - 48)) 0

/-- Fuel-driven rendering of the decimal digits of `n` (empty for `0`). -/
def natToCharsAux : Nat → Nat → List Char
  | 0, _ => []
  | fuel + 1, n => if n = 0 then [] else natToCharsAux fuel (n / 10) ++ [digitChar (n % 10)]

/-- Decimal rendering of a natural number, embedding Python `str` on `Nat`. -/
def natToChars (n : Nat) : List Char :=
  if n = 0 then ['0'] else natToCharsAux (n + 1) n

/-- Embedding of Python `str(...)` on integers. -/
def pyStrInt (i : Int) : List Char :=
  if i < 0 then '-' :: natToChars i.natAbs else natToChars i.toNat

/-- Embedding of Python `int(...)` on a token: an optional sign followed by
ASCII decimal digits succeeds, anything else raises `ValueError` (here:
`none`).  (Surrounding whitespace never occurs in tokens produced by
`str.split()`, and underscore digit grouping is not used by this program.) -/
def pyIntOfChars (l : List Char) : Option Int :=
  match l with
  | [] => none
  | c :: rest =>
    if c = '-' then
      if !rest.isEmpty && rest.all isDigitChar then some (-(digitsToNat rest : Int)) else none
    else if c = '+' then
      if !rest.isEmpty && rest.all isDigitChar then some ((digitsToNat rest : Int)) else none
    else
      if (c :: rest).all isDigitChar then some ((digitsToNat (c :: rest) : Int)) else none

/-- Embedding of Python `str.zfill`: left-pad with `'0'` up to width `w`,
keeping a leading sign in place. -/
def zfill (w : Nat) (l : List Char) : List Char :=
  match l with
  | [] => List.replicate w '0'
  | c :: rest =>
    if c = '-' ∨ c = '+' then
      c :: (List.replicate (w - (rest.length + 1)) '0' ++ rest)
    else
      List.replicate (w - (c :: rest).length) '0' ++ (c :: rest)

/-- Accumulator worker for `splitWs`; `acc` holds the current token reversed. -/
def splitWsAux : List Char → List Char → List (List Char)
  | [], acc => if acc.isEmpty then [] else [acc.reverse]
  | c :: cs, acc =>
    if isSpaceChar c then
      if acc.isEmpty then splitWsAux cs [] else acc.reverse :: splitWsAux cs []
    else splitWsAux cs (c :: acc)

/-- Embedding of Python `str.split()` (no argument): split on runs of
whitespace, discarding empty tokens. -/
def splitWs (l : List Char) : List (List Char) := splitWsAux l []

/-- Check that `needle` is a prefix of `hay`. -/
def charsHasPrefixAt : List Char → List Char → Bool
  | [], _ => true
  | _ :: _, [] => false
  | a :: as, b :: bs => a == b && charsHasPrefixAt as bs

/-- Substring containment on character lists, embedding Python's `in`. -/
def charsHasSub (needle : List Char) : List Char → Bool
  | [] => charsHasPrefixAt needle []
  | c :: rest => charsHasPrefixAt needle (c :: rest) || charsHasSub needle rest

/-- Embedding of Python's substring test `needle in hay`. -/
def pyInStr (needle hay : String) : Bool := charsHasSub needle.data hay.data

/-! ### Configuration constants (src/util.py lines 6-17) -/

/-- Expected number of new case IDs to generate per county-year
(`BATCH_SIZE` in src/util.py).  The allocator below takes the batch-size
table as an explicit argument; this constant is the table the program
actually runs with. -/
def BATCH_SIZE : List (String × Nat) :=
  [("Douglas", 30), ("Lancaster", 20), ("Sarpy", 10)]

/-- Mapping from county code to county name (`COUNTY_MAP` in src/util.py). -/
def COUNTY_MAP : List (String × String) :=
  [("01", "Douglas"), ("02", "Lancaster"), ("59", "Sarpy")]

/-- Reverse map from county name back to code, built exactly as in
src/util.py line 78 (`{v: k for k, v in COUNTY_MAP.items()}`). -/
def inv_county_map : List (String × String) :=
  COUNTY_MAP.map (fun p => (p.2, p.1))

/-! ### parse_case_info (src/util.py lines 34-59) -/

/-- The dictionary returned by `parse_case_info`. -/
structure ParsedCase where
  CaseYear : Int
  County : String
  CaseNumber : String
deriving DecidableEq

/-- Embedding of `parse_case_info` (src/util.py lines 34-59): split the
string on whitespace; accessing `parts[4]` raises `IndexError` (here `none`)
when there are fewer than five tokens; `int(year_suffix)` raises
`ValueError` (here `none`) when the fourth token is not an integer literal;
the county code resolves through `county_map.get(county_code, "Unknown")`;
the case-number token is returned verbatim. -/
def parse_case_info (s : String) (county_map : List (String × String)) : Option ParsedCase :=
  match splitWs s.data with
  | _t0 :: t1 :: _t2 :: t3 :: t4 :: _rest =>
    (pyIntOfChars t3).map fun y =>
      { CaseYear := 2000 + y
        County := (List.lookup (String.mk t1) county_map).getD "Unknown"
        CaseNumber := String.mk t4 }
  | _ => none

/-! ### get_next_n_cases (src/util.py lines 62-115) -/

/-- One element of the MongoDB aggregation result (`AGG_PIPELINE`): the
maximum stored case number for one (CaseYear, County) partition. -/
structure Checkpoint where
  CaseYear : Int
  County : String
  MaxCaseNumber : Int
deriving DecidableEq

/-- County code used when formatting, src/util.py line 88:
`inv_county_map.get(ckpt["_id"]["County"], "00")`. -/
def county_code (c : Checkpoint) : String :=
  (List.lookup c.County inv_county_map).getD "00"

/-- Year suffix used when formatting, src/util.py line 87:
`str(ckpt["_id"]["CaseYear"] - 2000)`. -/
def year_suffix_str (c : Checkpoint) : String :=
  String.mk (pyStrInt (c.CaseYear - 2000))

/-- The f-string of src/util.py line 96: `f"D {county_code} JV {year_suffix} {num_str}"`. -/
def mkCaseId (code suffix num : String) : String :=
  "D " ++ code ++ " JV " ++ suffix ++ " " ++ num

/-- The inner loop of src/util.py lines 94-96: the `b` identifiers generated
for one checkpoint, with case numbers `MaxCaseNumber + 1 + offset` rendered
through `str(...).zfill(7)`. -/
def batch_ids (c : Checkpoint) (b : Nat) : List String :=
  (List.range b).map fun off =>
    mkCaseId (county_code c) (year_suffix_str c)
      (String.mk (zfill 7 (pyStrInt (c.MaxCaseNumber + 1 + Int.ofNat off))))

/-- Embedding of the identifier-generation loop of `get_next_n_cases`
(src/util.py lines 81-96).  `cks` is the aggregation result, `bs` the
batch-size table, `ty` is `date.today().year`.  A checkpoint for another
year is skipped (line 84); `BATCH_SIZE[county]` on a county absent from the
table raises `KeyError` (line 92), aborting the whole computation: `none`. -/
def get_next_n_cases (cks : List Checkpoint) (bs : List (String × Nat)) (ty : Int) :
    Option (List String) :=
  match cks with
  | [] => some []
  | c :: rest =>
    if c.CaseYear = ty then
      match List.lookup c.County bs with
      | none => none
      | some b => (get_next_n_cases rest bs ty).map (fun tail => batch_ids c b ++ tail)
    else get_next_n_cases rest bs ty

/-! ### Record materialization (src/util.py lines 98-115 and 117-136) -/

/-- A stored MongoDB document as read back by `get_bounced_cases`:
`CaseID` string, `Docket` content (absent/null modelled as `none`), and the
`TimeScraped` stamp it was stored with (an abstract date value). -/
structure StoredRecord where
  CaseID : String
  Docket : Option String
  TimeScraped : Int
deriving DecidableEq

/-- A row of the polars DataFrame both core functions return: the parsed
identifier columns plus the metadata columns stamped by `with_columns`
(`TimeScraped = date.today()`, `Docket = None`, `DateOfBirth = None`). -/
structure OutRecord where
  CaseYear : Int
  County : String
  CaseNumber : String
  TimeScraped : Int
  Docket : Option String
  DateOfBirth : Option String
deriving DecidableEq

/-- The success-marker substring tested by the pipeline ("Case Summary"). -/
def marker : String := "Case Summary"

/-- The DataFrame build of src/util.py lines 98-112: parse every generated
`CaseID` (a parse failure would raise, aborting everything: `none`) and stamp
each row with `TimeScraped = today`, `Docket = None`, `DateOfBirth = None`.
The `map_elements` call at lines 101-107 pins an explicit `return_dtype`, so
this stage succeeds even on an empty identifier list (the parsed column is an
explicitly typed empty Struct column and `unnest` accepts it).  Caveat on the
column naming: that declared dtype lists a field `CaseType` where the parser
emits `County`, so the real generator DataFrame carries the county value under
a mismatched schema (null `CaseType`, no `County` column); the parsed county is
kept here under `County`, and no theorem below inspects that field — the
stamped `TimeScraped`/`Docket`/`DateOfBirth` columns are added by
`with_columns` regardless. -/
def stampRows (ids : List String) (today : Int) : Option (List OutRecord) :=
  match ids with
  | [] => some []
  | id :: rest =>
    match parse_case_info id COUNTY_MAP with
    | none => none
    | some p =>
      (stampRows rest today).map
        (fun tail => ⟨p.CaseYear, p.County, p.CaseNumber, today, none, none⟩ :: tail)

/-- `get_next_n_cases` including its DataFrame stage: generate the raw ids,
then parse and stamp them (src/util.py lines 62-115). -/
def get_next_n_cases_df (cks : List Checkpoint) (bs : List (String × Nat)) (ty : Int)
    (today : Int) : Option (List OutRecord) :=
  (get_next_n_cases cks bs ty).bind (fun ids => stampRows ids today)

/-- The list comprehension of src/util.py line 125:
`[parse_case_info(d["CaseID"]) for d in data if "Case Summary" not in d["Docket"]]`.
For each stored record in order, the filter is evaluated first: on a null
`Docket`, `in` raises `TypeError` (here `none`); a record containing the
marker is skipped; otherwise `parse_case_info` runs (a parse failure aborts
everything: `none`). -/
def bounced_parsed (data : List StoredRecord) : Option (List ParsedCase) :=
  match data with
  | [] => some []
  | d :: rest =>
    match d.Docket with
    | none => none
    | some doc =>
      if pyInStr marker doc then bounced_parsed rest
      else
        match parse_case_info d.CaseID COUNTY_MAP with
        | none => none
        | some p => (bounced_parsed rest).map (fun tail => p :: tail)

/-- Embedding of `get_bounced_cases` (src/util.py lines 117-136): the
comprehension (`bounced_parsed`, line 125) followed by the DataFrame stage
(lines 127-132).  Unlike the generator, no `return_dtype` is declared here:
when the comprehension yields an empty list, `pl.DataFrame({"parsed": []})`
at line 127 infers a `Null`-dtype column and `.unnest("parsed")` at line 132
raises `SchemaError` (here `none`) — the zero-pending path is an error, not
an empty result.  With a nonempty list the column is a Struct, `unnest`
succeeds, and each row is stamped `TimeScraped = today`, `Docket = None`,
`DateOfBirth = None`. -/
def get_bounced_cases (data : List StoredRecord) (today : Int) : Option (List OutRecord) :=
  match bounced_parsed data with
  | none => none
  | some [] => none
  | some (p :: ps) =>
    some ((p :: ps).map fun q => ⟨q.CaseYear, q.County, q.CaseNumber, today, none, none⟩)

/-! ### Observers and spec-side definitions

The functions below are not translations of source code: they are
measurement functions used to state properties of the emitted identifier
strings, and spec-side definitions (marked as such) used to compare the
source against the specification's words. -/

/-- The case-number token of an identifier string: the fifth
whitespace-separated token. -/
def caseNumTokenOf (s : String) : Option (List Char) :=
  (splitWs s.data)[4]?

/-- The numeric case number carried by an identifier string: the fifth
token read as an integer. -/
def caseNumberOf (s : String) : Option Int :=
  (caseNumTokenOf s).bind pyIntOfChars

/-- The county-code token of an identifier string: the second
whitespace-separated token. -/
def countyTokenOf (s : String) : Option (List Char) :=
  (splitWs s.data)[1]?

/-- Spec-side datatype (spec §3): a structured CaseIdentifier with all five
fields. -/
structure CaseIdentifier where
  CourtType : String
  CountyCode : String
  CaseCategory : String
  CaseYear : Int
  CaseNumber : Nat
deriving DecidableEq

/-- Spec-side serialization (spec §3): the canonical 5-token string
`"<CourtType> <CountyCode> <CaseCategory> <YearSuffix> <CaseNumber>"`, with
the year suffix and zero-padding rendered exactly as the source renders them
(src/util.py lines 87-96). -/
def format_case (c : CaseIdentifier) : String :=
  c.CourtType ++ " " ++ c.CountyCode ++ " " ++ c.CaseCategory ++ " "
    ++ String.mk (pyStrInt (c.CaseYear - 2000)) ++ " "
    ++ String.mk (zfill 7 (pyStrInt (c.CaseNumber : Int)))

/-- Spec-side well-formedness (spec §3): the court type and case category
are the fixed domain constants, the county code is in the fixed table, and
the year is a four-digit current-era year. -/
def wellFormedCase (c : CaseIdentifier) : Prop :=
  c.CourtType = "D" ∧ c.CaseCategory = "JV" ∧
    (List.lookup c.CountyCode COUNTY_MAP).isSome = true ∧
    2000 ≤ c.CaseYear ∧ c.CaseYear ≤ 2099

instance : DecidablePred wellFormedCase := fun c => by
  unfold wellFormedCase; infer_instance

/-- Spec-side recovery of a full CaseIdentifier from the parser's output:
the fixed fields are the domain constants, the county code is recovered
through the inverse county map, and the case number is the numeric value of
the stored token. -/
def recover_case (p : ParsedCase) : CaseIdentifier :=
  { CourtType := "D"
    CountyCode := (List.lookup p.County inv_county_map).getD "00"
    CaseCategory := "JV"
    CaseYear := p.CaseYear
    CaseNumber := ((pyIntOfChars p.CaseNumber.data).getD 0).toNat }

/-- Spec-side pending test (spec §3 invariant): a record is pending when its
`Docket` is absent or does not contain the success marker. -/
def pending_filter (d : StoredRecord) : Bool :=
  match d.Docket with
  | none => true
  | some doc => !(pyInStr marker doc)

/-- Spec-side retry selection (spec §4.3): the records whose `Docket` is
absent or does not contain the success marker. -/
def select_pending_spec (data : List StoredRecord) : List StoredRecord :=
  data.filter pending_filter

/-- No character of the list is whitespace. -/
def noWsChars (l : List Char) : Prop := ∀ c ∈ l, isSpaceChar c = false

instance (l : List Char) : Decidable (noWsChars l) := by
  unfold noWsChars; infer_instance

/-! ### Lemmas about the Python number primitives -/

theorem digitChar_spec : ∀ d, d < 10 →
    isDigitChar (digitChar d) = true ∧ (digitChar d).toNat = 48 + d := by
  decide

theorem digitsToNat_append_digit (l : List Char) (c : Char) :
    digitsToNat (l ++ [c]) = digitsToNat l * 10 + (c.toNat - 48) := by
  simp [digitsToNat, List.foldl_append]

theorem natToCharsAux_spec (fuel : Nat) : ∀ n, n ≤ fuel →
    digitsToNat (natToCharsAux fuel n) = n ∧ (natToCharsAux fuel n).all isDigitChar = true := by
  induction fuel with
  | zero =>
    intro n h
    have h0 : n = 0 := Nat.le_zero.mp h
    subst h0
    exact ⟨rfl, rfl⟩
  | succ fuel ih =>
    intro n h
    by_cases h0 : n = 0
    · subst h0; exact ⟨rfl, rfl⟩
    · have hdiv : n / 10 ≤ fuel := by omega
      obtain ⟨ih1, ih2⟩ := ih (n / 10) hdiv
      obtain ⟨hd1, hd2⟩ := digitChar_spec (n % 10) (Nat.mod_lt _ (by norm_num))
      constructor
      · rw [natToCharsAux, if_neg h0, digitsToNat_append_digit, ih1, hd2]
        omega
      · rw [natToCharsAux, if_neg h0, List.all_append, ih2]
        simp [hd1]

theorem natToChars_spec (n : Nat) :
    digitsToNat (natToChars n) = n ∧ (natToChars n).all isDigitChar = true ∧
      natToChars n ≠ [] := by
  by_cases h0 : n = 0
  · subst h0; exact ⟨by decide, by decide, by decide⟩
  · obtain ⟨h1, h2⟩ := natToCharsAux_spec (n + 1) n (by omega)
    refine ⟨by simpa [natToChars, h0] using h1, by simpa [natToChars, h0] using h2, ?_⟩
    rw [natToChars, if_neg h0, natToCharsAux, if_neg h0]
    simp

theorem pyIntOfChars_digits (l : List Char) (hne : l ≠ []) (hd : l.all isDigitChar = true) :
    pyIntOfChars l = some ((digitsToNat l : Int)) := by
  match l, hne with
  | c :: rest, _ =>
    have hc : isDigitChar c = true := by
      rw [List.all_cons, Bool.and_eq_true] at hd
      exact hd.1
    have h1 : c ≠ '-' := by rintro rfl; exact absurd hc (by decide)
    have h2 : c ≠ '+' := by rintro rfl; exact absurd hc (by decide)
    rw [pyIntOfChars, if_neg h1, if_neg h2, if_pos hd]

theorem digitsToNat_replicate_zero (m : Nat) (l : List Char) :
    digitsToNat (List.replicate m '0' ++ l) = digitsToNat l := by
  induction m with
  | zero => simp
  | succ m ih =>
    rw [List.replicate_succ, List.cons_append]
    show List.foldl _ (0 * 10 + ('0'.toNat - 48)) _ = _
    have h0 : 0 * 10 + ('0'.toNat - 48) = 0 := by decide
    rw [h0]
    exact ih

theorem all_digits_replicate_zero (m : Nat) :
    (List.replicate m '0').all isDigitChar = true := by
  rw [List.all_eq_true]
  intro c hc
  rw [List.eq_of_mem_replicate hc]
  decide

theorem isEmpty_false_of_ne_nil {α : Type} (l : List α) (h : l ≠ []) : l.isEmpty = false := by
  cases l with
  | nil => exact absurd rfl h
  | cons a t => rfl

theorem pyStrInt_roundtrip (i : Int) : pyIntOfChars (pyStrInt i) = some i := by
  obtain ⟨h1, h2, h3⟩ := natToChars_spec i.natAbs
  by_cases hneg : i < 0
  · rw [pyStrInt, if_pos hneg, pyIntOfChars, if_pos rfl]
    have hcond : (!(natToChars i.natAbs).isEmpty && (natToChars i.natAbs).all isDigitChar)
        = true := by
      rw [isEmpty_false_of_ne_nil _ h3, h2]
      rfl
    rw [if_pos hcond, h1]
    congr 1
    omega
  · rw [pyStrInt, if_neg hneg]
    have htn : i.toNat = i.natAbs := by omega
    rw [htn, pyIntOfChars_digits _ h3 h2, h1]
    congr 1
    omega

theorem pyIntOfChars_zfill_pyStrInt (w : Nat) (i : Int) :
    pyIntOfChars (zfill w (pyStrInt i)) = some i := by
  obtain ⟨h1, h2, h3⟩ := natToChars_spec i.natAbs
  by_cases hneg : i < 0
  · rw [pyStrInt, if_pos hneg, zfill, if_pos (Or.inl rfl), pyIntOfChars, if_pos rfl]
    have hne2 : (List.replicate (w - ((natToChars i.natAbs).length + 1)) '0'
        ++ natToChars i.natAbs) ≠ [] := by
      intro hcontra
      rcases List.append_eq_nil.mp hcontra with ⟨_, hr⟩
      exact h3 hr
    have hall2 : (List.replicate (w - ((natToChars i.natAbs).length + 1)) '0'
        ++ natToChars i.natAbs).all isDigitChar = true := by
      rw [List.all_append]
      simp only [all_digits_replicate_zero, h2]
      rfl
    have hcond : (!(List.replicate (w - ((natToChars i.natAbs).length + 1)) '0'
        ++ natToChars i.natAbs).isEmpty
        && (List.replicate (w - ((natToChars i.natAbs).length + 1)) '0'
        ++ natToChars i.natAbs).all isDigitChar) = true := by
      rw [isEmpty_false_of_ne_nil _ hne2, hall2]
      rfl
    rw [if_pos hcond, digitsToNat_replicate_zero, h1]
    congr 1
    omega
  · rw [pyStrInt, if_neg hneg]
    have htn : i.toNat = i.natAbs := by omega
    rw [htn]
    match hnc : natToChars i.natAbs, h3 with
    | c :: rest, _ =>
      have hc : isDigitChar c = true := by
        rw [hnc, List.all_cons, Bool.and_eq_true] at h2
        exact h2.1
      have hs1 : c ≠ '-' := by rintro rfl; exact absurd hc (by decide)
      have hs2 : c ≠ '+' := by rintro rfl; exact absurd hc (by decide)
      rw [zfill, if_neg (by rintro (rfl | rfl) <;> exact absurd hc (by decide))]
      rw [pyIntOfChars_digits _ (by simp) (by
        rw [List.all_append]
        simp only [all_digits_replicate_zero, Bool.true_and]
        rw [← hnc]; exact h2)]
      rw [digitsToNat_replicate_zero, ← hnc, h1]
      congr 1
      omega

/-! ### Lemmas about splitting on whitespace -/

theorem space_toNat_lt (c : Char) (h : isSpaceChar c = true) : c.toNat < 48 := by
  simp only [isSpaceChar, Bool.or_eq_true, beq_iff_eq] at h
  rcases h with ((((h | h) | h) | h) | h) | h <;> subst h <;> decide

theorem digit_not_space (c : Char) (h : isDigitChar c = true) : isSpaceChar c = false := by
  have h48 : 48 ≤ c.toNat := by
    simp only [isDigitChar, Bool.and_eq_true, decide_eq_true_eq] at h
    exact h.1
  cases hs : isSpaceChar c with
  | false => rfl
  | true => exact absurd (space_toNat_lt c hs) (by omega)

theorem noWs_of_all_digits (l : List Char) (h : l.all isDigitChar = true) : noWsChars l := by
  intro c hc
  exact digit_not_space c (List.all_eq_true.mp h c hc)

theorem noWs_pyStrInt (i : Int) : noWsChars (pyStrInt i) ∧ pyStrInt i ≠ [] := by
  obtain ⟨_, h2, h3⟩ := natToChars_spec i.natAbs
  by_cases hneg : i < 0
  · rw [pyStrInt, if_pos hneg]
    refine ⟨?_, by simp⟩
    intro c hc
    rcases List.mem_cons.mp hc with rfl | hc
    · decide
    · exact noWs_of_all_digits _ h2 c hc
  · rw [pyStrInt, if_neg hneg]
    have htn : i.toNat = i.natAbs := by omega
    rw [htn]
    exact ⟨noWs_of_all_digits _ h2, h3⟩

theorem noWs_zfill (w : Nat) (l : List Char) (h : noWsChars l) (hne : l ≠ []) :
    noWsChars (zfill w l) ∧ zfill w l ≠ [] := by
  have hzero : ∀ c ∈ List.replicate (w - l.length) '0', isSpaceChar c = false := by
    intro c hc
    rw [List.eq_of_mem_replicate hc]
    decide
  match l, hne with
  | c :: rest, _ =>
    by_cases hsign : c = '-' ∨ c = '+'
    · rw [zfill, if_pos hsign]
      constructor
      · intro x hx
        rcases List.mem_cons.mp hx with rfl | hx
        · exact h x (List.mem_cons_self _ _)
        · rcases List.mem_append.mp hx with hx | hx
          · rw [List.eq_of_mem_replicate hx]; decide
          · exact h x (List.mem_cons_of_mem _ hx)
      · simp
    · rw [zfill, if_neg hsign]
      constructor
      · intro x hx
        rcases List.mem_append.mp hx with hx | hx
        · rw [List.eq_of_mem_replicate hx]; decide
        · exact h x hx
      · simp

theorem splitWsAux_token (t : List Char) (h : noWsChars t) :
    ∀ l acc, splitWsAux (t ++ l) acc = splitWsAux l (t.reverse ++ acc) := by
  induction t with
  | nil => intro l acc; simp
  | cons c cs ih =>
    intro l acc
    have hc : isSpaceChar c = false := h c (List.mem_cons_self c cs)
    have ih' := ih (fun x hx => h x (List.mem_cons_of_mem c hx)) l (c :: acc)
    rw [List.cons_append, splitWsAux, hc]
    simp only [Bool.false_eq_true, if_false]
    rw [ih', List.reverse_cons, List.append_assoc]
    rfl

theorem splitWs_token_space (t : List Char) (hne : t ≠ []) (h : noWsChars t) (l : List Char) :
    splitWs (t ++ ' ' :: l) = t :: splitWs l := by
  unfold splitWs
  rw [splitWsAux_token t h (' ' :: l) [], List.append_nil, splitWsAux]
  have hsp : isSpaceChar ' ' = true := rfl
  rw [hsp]
  simp only [if_true]
  rw [isEmpty_false_of_ne_nil _ (by simp [hne])]
  simp only [Bool.false_eq_true, if_false]
  rw [List.reverse_reverse]

theorem splitWs_last_token (t : List Char) (hne : t ≠ []) (h : noWsChars t) :
    splitWs t = [t] := by
  unfold splitWs
  have h0 := splitWsAux_token t h [] []
  rw [List.append_nil] at h0
  rw [h0, List.append_nil, splitWsAux]
  rw [isEmpty_false_of_ne_nil _ (by simp [hne])]
  simp only [Bool.false_eq_true, if_false]
  rw [List.reverse_reverse]

theorem string_data_append (s t : String) : (s ++ t).data = s.data ++ t.data := by
  cases s
  cases t
  rfl

theorem mkCaseId_data (code suffix num : String) :
    (mkCaseId code suffix num).data
      = ['D'] ++ ' ' :: (code.data ++ ' '
        :: (['J', 'V'] ++ ' ' :: (suffix.data ++ ' ' :: num.data))) := by
  have h1 : ("D " : String).data = ['D', ' '] := rfl
  have h2 : (" JV " : String).data = [' ', 'J', 'V', ' '] := rfl
  have h3 : (" " : String).data = [' '] := rfl
  simp [mkCaseId, string_data_append, h1, h2, h3]

theorem splitWs_mkCaseId (code suffix num : String)
    (hc : code.data ≠ [] ∧ noWsChars code.data)
    (hs : suffix.data ≠ [] ∧ noWsChars suffix.data)
    (hn : num.data ≠ [] ∧ noWsChars num.data) :
    splitWs (mkCaseId code suffix num).data
      = [['D'], code.data, ['J', 'V'], suffix.data, num.data] := by
  rw [mkCaseId_data]
  rw [splitWs_token_space ['D'] (by decide) (by decide)]
  rw [splitWs_token_space code.data hc.1 hc.2]
  rw [splitWs_token_space ['J', 'V'] (by decide) (by decide)]
  rw [splitWs_token_space suffix.data hs.1 hs.2]
  rw [splitWs_last_token num.data hn.1 hn.2]

/-! ### Lemmas about the county tables and generated identifiers -/

theorem lookup_cons_unfold {β : Type} (a k : String) (v : β) (es : List (String × β)) :
    List.lookup a ((k, v) :: es) = if a = k then some v else List.lookup a es := by
  rw [List.lookup]
  by_cases h : a = k
  · simp [h]
  · have hb : (a == k) = false := beq_eq_false_iff_ne.mpr h
    simp [hb, h]

theorem inv_county_map_eq :
    inv_county_map = [("Douglas", "01"), ("Lancaster", "02"), ("Sarpy", "59")] := rfl

theorem lookup_inv_cases (s : String) :
    List.lookup s inv_county_map = none ∨ List.lookup s inv_county_map = some "01"
      ∨ List.lookup s inv_county_map = some "02" ∨ List.lookup s inv_county_map = some "59" := by
  rw [inv_county_map_eq, lookup_cons_unfold, lookup_cons_unfold, lookup_cons_unfold]
  by_cases h1 : s = "Douglas"
  · simp [h1]
  · by_cases h2 : s = "Lancaster"
    · simp [h1, h2]
    · by_cases h3 : s = "Sarpy"
      · simp [h1, h2, h3]
      · simp [h1, h2, h3]

theorem lookup_county_map_cases (s : String) (h : (List.lookup s COUNTY_MAP).isSome = true) :
    (s = "01" ∧ List.lookup s COUNTY_MAP = some "Douglas")
      ∨ (s = "02" ∧ List.lookup s COUNTY_MAP = some "Lancaster")
      ∨ (s = "59" ∧ List.lookup s COUNTY_MAP = some "Sarpy") := by
  rw [COUNTY_MAP, lookup_cons_unfold, lookup_cons_unfold, lookup_cons_unfold] at *
  by_cases h1 : s = "01"
  · simp [h1]
  · by_cases h2 : s = "02"
    · simp [h1, h2]
    · by_cases h3 : s = "59"
      · simp [h1, h2, h3]
      · simp [h1, h2, h3] at h

theorem county_code_token (c : Checkpoint) :
    (county_code c).data ≠ [] ∧ noWsChars (county_code c).data := by
  unfold county_code
  rcases lookup_inv_cases c.County with h | h | h | h <;> rw [h] <;>
    exact ⟨by decide, by decide⟩

theorem splitWs_batch_id (c : Checkpoint) (v : Int) :
    splitWs (mkCaseId (county_code c) (year_suffix_str c)
        (String.mk (zfill 7 (pyStrInt v)))).data
      = [['D'], (county_code c).data, ['J', 'V'],
          pyStrInt (c.CaseYear - 2000), zfill 7 (pyStrInt v)] := by
  have hc := county_code_token c
  have hs0 := noWs_pyStrInt (c.CaseYear - 2000)
  have hn0 := noWs_zfill 7 (pyStrInt v) (noWs_pyStrInt v).1 (noWs_pyStrInt v).2
  exact splitWs_mkCaseId _ _ _ hc ⟨hs0.2, hs0.1⟩ ⟨hn0.2, hn0.1⟩

theorem caseNumTokenOf_batch_id (c : Checkpoint) (v : Int) :
    caseNumTokenOf (mkCaseId (county_code c) (year_suffix_str c)
        (String.mk (zfill 7 (pyStrInt v)))) = some (zfill 7 (pyStrInt v)) := by
  unfold caseNumTokenOf
  rw [splitWs_batch_id]
  rfl

theorem caseNumberOf_batch_id (c : Checkpoint) (v : Int) :
    caseNumberOf (mkCaseId (county_code c) (year_suffix_str c)
        (String.mk (zfill 7 (pyStrInt v)))) = some v := by
  unfold caseNumberOf
  rw [caseNumTokenOf_batch_id]
  exact pyIntOfChars_zfill_pyStrInt 7 v

theorem countyTokenOf_batch_id (c : Checkpoint) (v : Int) :
    countyTokenOf (mkCaseId (county_code c) (year_suffix_str c)
        (String.mk (zfill 7 (pyStrInt v)))) = some (county_code c).data := by
  unfold countyTokenOf
  rw [splitWs_batch_id]
  rfl

theorem batch_ids_length (c : Checkpoint) (b : Nat) : (batch_ids c b).length = b := by
  unfold batch_ids
  rw [List.length_map, List.length_range]

theorem batch_ids_getElem (c : Checkpoint) (b i : Nat) (h : i < b) :
    (batch_ids c b)[i]? = some (mkCaseId (county_code c) (year_suffix_str c)
      (String.mk (zfill 7 (pyStrInt (c.MaxCaseNumber + 1 + Int.ofNat i))))) := by
  unfold batch_ids
  simp [List.getElem?_map, List.getElem?_range, h]

/-! ### Lemmas about the allocation loop -/

theorem get_next_n_cases_none_of_unconfigured (cks : List Checkpoint)
    (bs : List (String × Nat)) (ty : Int) (c : Checkpoint) (hmem : c ∈ cks)
    (hy : c.CaseYear = ty) (hbs : List.lookup c.County bs = none) :
    get_next_n_cases cks bs ty = none := by
  induction cks with
  | nil => cases hmem
  | cons d rest ih =>
    rcases List.mem_cons.mp hmem with rfl | hmem'
    · rw [get_next_n_cases, if_pos hy, hbs]
    · rw [get_next_n_cases]
      by_cases hd : d.CaseYear = ty
      · rw [if_pos hd]
        cases hlk : List.lookup d.County bs with
        | none => rfl
        | some b => rw [ih hmem']; rfl
      · rw [if_neg hd]
        exact ih hmem'

theorem get_next_n_cases_eq_flatten (cks : List Checkpoint) (bs : List (String × Nat))
    (ty : Int) (h : ∀ c ∈ cks, c.CaseYear = ty → (List.lookup c.County bs).isSome = true) :
    get_next_n_cases cks bs ty
      = some (((cks.filter (fun c => c.CaseYear == ty)).map
          (fun c => batch_ids c ((List.lookup c.County bs).getD 0))).flatten) := by
  induction cks with
  | nil => rfl
  | cons c rest ih =>
    have ih' := ih (fun d hd hy => h d (List.mem_cons_of_mem _ hd) hy)
    by_cases hy : c.CaseYear = ty
    · have hs := h c (List.mem_cons_self _ _) hy
      cases hlk : List.lookup c.County bs with
      | none => rw [hlk] at hs; cases hs
      | some b =>
        rw [get_next_n_cases, if_pos hy, hlk, ih']
        have hb : (c.CaseYear == ty) = true := beq_iff_eq.mpr hy
        simp [List.filter_cons, hb, hlk, List.flatten_cons]
    · rw [get_next_n_cases, if_neg hy, ih']
      have hb : (c.CaseYear == ty) = false := by simp [hy]
      simp [List.filter_cons, hb]

/-! ### Lemmas about the selection and stamping loops -/

theorem bounced_parsed_cons_nodoc (d : StoredRecord) (rest : List StoredRecord)
    (hd : d.Docket = none) :
    bounced_parsed (d :: rest) = none := by
  rw [bounced_parsed, hd]

theorem bounced_parsed_cons_marker (d : StoredRecord) (rest : List StoredRecord)
    (doc : String) (hd : d.Docket = some doc) (hm : pyInStr marker doc = true) :
    bounced_parsed (d :: rest) = bounced_parsed rest := by
  rw [bounced_parsed, hd]
  simp [hm]

theorem bounced_parsed_cons_pending (d : StoredRecord) (rest : List StoredRecord)
    (doc : String) (p : ParsedCase) (hd : d.Docket = some doc)
    (hm : pyInStr marker doc = false) (hp : parse_case_info d.CaseID COUNTY_MAP = some p) :
    bounced_parsed (d :: rest) = (bounced_parsed rest).map (fun tail => p :: tail) := by
  rw [bounced_parsed, hd]
  simp [hm, hp]

theorem bounced_parsed_cons_badparse (d : StoredRecord) (rest : List StoredRecord)
    (doc : String) (hd : d.Docket = some doc)
    (hm : pyInStr marker doc = false) (hp : parse_case_info d.CaseID COUNTY_MAP = none) :
    bounced_parsed (d :: rest) = none := by
  rw [bounced_parsed, hd]
  simp [hm, hp]

theorem bounced_parsed_abort (data : List StoredRecord)
    (h : ∃ d ∈ data, d.Docket = none
      ∨ ∃ doc, d.Docket = some doc ∧ pyInStr marker doc = false
          ∧ parse_case_info d.CaseID COUNTY_MAP = none) :
    bounced_parsed data = none := by
  induction data with
  | nil => rcases h with ⟨d, hd, _⟩; cases hd
  | cons d rest ih =>
    rcases h with ⟨e, he, hbad⟩
    rcases List.mem_cons.mp he with rfl | he'
    · rcases hbad with hn | ⟨doc, hdoc, hm, hp⟩
      · exact bounced_parsed_cons_nodoc _ _ hn
      · exact bounced_parsed_cons_badparse _ _ _ hdoc hm hp
    · cases hdd : d.Docket with
      | none => exact bounced_parsed_cons_nodoc _ _ hdd
      | some doc =>
        by_cases hm : pyInStr marker doc = true
        · rw [bounced_parsed_cons_marker _ _ _ hdd hm]
          exact ih ⟨e, he', hbad⟩
        · have hm' : pyInStr marker doc = false := by simpa using hm
          cases hp : parse_case_info d.CaseID COUNTY_MAP with
          | none => exact bounced_parsed_cons_badparse _ _ _ hdd hm' hp
          | some p =>
            rw [bounced_parsed_cons_pending _ _ _ _ hdd hm' hp, ih ⟨e, he', hbad⟩]
            rfl

theorem get_bounced_cases_abort (data : List StoredRecord) (today : Int)
    (h : ∃ d ∈ data, d.Docket = none
      ∨ ∃ doc, d.Docket = some doc ∧ pyInStr marker doc = false
          ∧ parse_case_info d.CaseID COUNTY_MAP = none) :
    get_bounced_cases data today = none := by
  unfold get_bounced_cases
  rw [bounced_parsed_abort data h]

theorem bounced_parsed_characterization (data : List StoredRecord)
    (hdoc : ∀ d ∈ data, d.Docket ≠ none)
    (hparse : ∀ d ∈ data, pending_filter d = true →
      (parse_case_info d.CaseID COUNTY_MAP).isSome = true) :
    ∃ ps, bounced_parsed data = some ps
      ∧ List.Forall₂ (fun (d : StoredRecord) (p : ParsedCase) =>
          parse_case_info d.CaseID COUNTY_MAP = some p)
          (select_pending_spec data) ps := by
  induction data with
  | nil => exact ⟨[], rfl, by simp [select_pending_spec]⟩
  | cons d rest ih =>
    obtain ⟨ps, hps, hfa⟩ := ih (fun x hx => hdoc x (List.mem_cons_of_mem _ hx))
      (fun x hx hpend => hparse x (List.mem_cons_of_mem _ hx) hpend)
    cases hd : d.Docket with
    | none => exact absurd hd (hdoc d (List.mem_cons_self _ _))
    | some doc =>
      by_cases hm : pyInStr marker doc = true
      · refine ⟨ps, ?_, ?_⟩
        · rw [bounced_parsed_cons_marker _ _ _ hd hm]
          exact hps
        · have hsel : select_pending_spec (d :: rest) = select_pending_spec rest := by
            unfold select_pending_spec
            rw [List.filter_cons]
            simp [pending_filter, hd, hm]
          rw [hsel]
          exact hfa
      · have hm' : pyInStr marker doc = false := by simpa using hm
        have hpend : pending_filter d = true := by simp [pending_filter, hd, hm']
        have hips := hparse d (List.mem_cons_self _ _) hpend
        cases hp : parse_case_info d.CaseID COUNTY_MAP with
        | none => rw [hp] at hips; cases hips
        | some p =>
          refine ⟨p :: ps, ?_, ?_⟩
          · rw [bounced_parsed_cons_pending _ _ _ _ hd hm' hp, hps]
            rfl
          · have hsel : select_pending_spec (d :: rest) = d :: select_pending_spec rest := by
              unfold select_pending_spec
              rw [List.filter_cons]
              simp [pending_filter, hd, hm']
            rw [hsel]
            exact List.Forall₂.cons hp hfa

theorem forall2_map_stamp {R : StoredRecord → ParsedCase → Prop}
    (f : ParsedCase → OutRecord) (l1 : List StoredRecord) (l2 : List ParsedCase)
    (h : List.Forall₂ R l1 l2) :
    List.Forall₂ (fun d r => ∃ p, R d p ∧ r = f p) l1 (l2.map f) := by
  induction h with
  | nil => exact List.Forall₂.nil
  | cons hab hrest ih => exact List.Forall₂.cons ⟨_, hab, rfl⟩ ih

theorem get_bounced_cases_stamps (data : List StoredRecord) (today : Int)
    (out : List OutRecord) (h : get_bounced_cases data today = some out) :
    out.all (fun r => r.TimeScraped == today && r.Docket == none) = true := by
  unfold get_bounced_cases at h
  cases hb : bounced_parsed data with
  | none => rw [hb] at h; cases h
  | some ps =>
    rw [hb] at h
    cases ps with
    | nil => cases h
    | cons p rest =>
      injection h with h'
      subst h'
      apply List.all_eq_true.mpr
      intro x hx
      rcases List.mem_map.mp hx with ⟨q, _, rfl⟩
      simp

theorem stampRows_stamps (ids : List String) (today : Int) (out : List OutRecord)
    (h : stampRows ids today = some out) :
    out.all (fun r => r.TimeScraped == today && r.Docket == none) = true := by
  induction ids generalizing out with
  | nil =>
    rw [stampRows] at h
    injection h with h'
    subst h'
    rfl
  | cons id rest ih =>
    rw [stampRows] at h
    cases hp : parse_case_info id COUNTY_MAP with
    | none => rw [hp] at h; cases h
    | some p =>
      rw [hp] at h
      cases hr : stampRows rest today with
      | none => rw [hr] at h; cases h
      | some tail =>
        rw [hr] at h
        injection h with h'
        subst h'
        rw [List.all_cons, ih tail hr]
        simp

/-! ### Lemmas about the parser -/

theorem parse_case_info_shape (s : String) (cm : List (String × String)) :
    (∃ t0 t1 t2 t3 t4 rest, splitWs s.data = t0 :: t1 :: t2 :: t3 :: t4 :: rest
      ∧ parse_case_info s cm = (pyIntOfChars t3).map fun y =>
          ⟨2000 + y, (List.lookup (String.mk t1) cm).getD "Unknown", String.mk t4⟩)
    ∨ ((splitWs s.data).length < 5 ∧ parse_case_info s cm = none) := by
  rcases h0 : splitWs s.data with _ | ⟨t0, _ | ⟨t1, _ | ⟨t2, _ | ⟨t3, _ | ⟨t4, rest⟩⟩⟩⟩⟩
  · right
    refine ⟨by simp, ?_⟩
    unfold parse_case_info
    rw [h0]
  · right
    refine ⟨by simp, ?_⟩
    unfold parse_case_info
    rw [h0]
  · right
    refine ⟨by simp, ?_⟩
    unfold parse_case_info
    rw [h0]
  · right
    refine ⟨by simp, ?_⟩
    unfold parse_case_info
    rw [h0]
  · right
    refine ⟨by simp, ?_⟩
    unfold parse_case_info
    rw [h0]
  · left
    refine ⟨t0, t1, t2, t3, t4, rest, rfl, ?_⟩
    unfold parse_case_info
    rw [h0]

theorem format_case_data (c : CaseIdentifier) (hct : c.CourtType = "D")
    (hcat : c.CaseCategory = "JV") :
    (format_case c).data
      = ['D'] ++ ' ' :: (c.CountyCode.data ++ ' '
        :: (['J', 'V'] ++ ' ' :: (pyStrInt (c.CaseYear - 2000) ++ ' '
          :: zfill 7 (pyStrInt (c.CaseNumber : Int))))) := by
  have hD : ("D" : String).data = ['D'] := rfl
  have hJV : ("JV" : String).data = ['J', 'V'] := rfl
  have hsp : (" " : String).data = [' '] := rfl
  rw [format_case, hct, hcat]
  simp [string_data_append, hD, hJV, hsp]

theorem roundtrip_branch (c : CaseIdentifier) (name : String)
    (hct : c.CourtType = "D") (hcat : c.CaseCategory = "JV")
    (hcode_ne : c.CountyCode.data ≠ []) (hcode_ws : noWsChars c.CountyCode.data)
    (hlk : List.lookup c.CountyCode COUNTY_MAP = some name)
    (hinv : List.lookup name inv_county_map = some c.CountyCode) :
    (parse_case_info (format_case c) COUNTY_MAP).map recover_case = some c := by
  have hs0 := noWs_pyStrInt (c.CaseYear - 2000)
  have hn0 := noWs_zfill 7 (pyStrInt (c.CaseNumber : Int))
    (noWs_pyStrInt (c.CaseNumber : Int)).1 (noWs_pyStrInt (c.CaseNumber : Int)).2
  have hsplit : splitWs (format_case c).data
      = [['D'], c.CountyCode.data, ['J', 'V'], pyStrInt (c.CaseYear - 2000),
          zfill 7 (pyStrInt (c.CaseNumber : Int))] := by
    rw [format_case_data c hct hcat]
    rw [splitWs_token_space ['D'] (by decide) (by decide)]
    rw [splitWs_token_space _ hcode_ne hcode_ws]
    rw [splitWs_token_space ['J', 'V'] (by decide) (by decide)]
    rw [splitWs_token_space _ hs0.2 hs0.1]
    rw [splitWs_last_token _ hn0.2 hn0.1]
  unfold parse_case_info
  rw [hsplit]
  show ((pyIntOfChars (pyStrInt (c.CaseYear - 2000))).map fun y =>
      ({ CaseYear := 2000 + y
         County := (List.lookup (String.mk c.CountyCode.data) COUNTY_MAP).getD "Unknown"
         CaseNumber := String.mk (zfill 7 (pyStrInt (c.CaseNumber : Int))) } : ParsedCase)).map
        recover_case = some c
  rw [pyStrInt_roundtrip, Option.map_some', Option.map_some']
  have hmkdata : String.mk c.CountyCode.data = c.CountyCode := rfl
  rw [hmkdata, hlk]
  unfold recover_case
  have hgetd : (some name).getD "Unknown" = name := rfl
  rw [hgetd, hinv]
  have hnum : pyIntOfChars (String.mk (zfill 7 (pyStrInt (c.CaseNumber : Int)))).data
      = some (c.CaseNumber : Int) := pyIntOfChars_zfill_pyStrInt 7 (c.CaseNumber : Int)
  rw [hnum]
  cases c with
  | mk ct cc cat y n =>
    subst hct
    subst hcat
    simp only [Option.some.injEq, CaseIdentifier.mk.injEq, Option.getD_some,
      and_true, true_and]
    omega

/-! ### Claim theorems -/

/-- C1, amended.  Provided every current-year partition's County has a
configured batch size, the allocator succeeds and emits exactly the
concatenation, over the partitions present in the input maxima list (and
only those, restricted to the current year), of each partition's block;
each block for batch size `b` has exactly `b` identifiers, whose
case-number tokens are the consecutive integers `MaxCaseNumber + 1 + i`
(strictly increasing in `i`) rendered zero-padded to 7 digits.  The claim
as frozen is false without the proviso: a current-year partition whose
county has no batch-size entry makes the whole allocation raise `KeyError`
(see the counterexample), so a qualifying configured partition then emits
nothing. -/
theorem claim_C1_allocator_batches (cks : List Checkpoint) (bs : List (String × Nat))
    (ty : Int)
    (h : ∀ c ∈ cks, c.CaseYear = ty → (List.lookup c.County bs).isSome = true) :
    (get_next_n_cases cks bs ty
      = some (((cks.filter (fun c => c.CaseYear == ty)).map
          (fun c => batch_ids c ((List.lookup c.County bs).getD 0))).flatten))
    ∧ (∀ c b, (batch_ids c b).length = b)
    ∧ (∀ c b i, i < b → ∃ id, (batch_ids c b)[i]? = some id
        ∧ caseNumTokenOf id = some (zfill 7 (pyStrInt (c.MaxCaseNumber + 1 + Int.ofNat i)))
        ∧ caseNumberOf id = some (c.MaxCaseNumber + 1 + Int.ofNat i)) := by
  refine ⟨get_next_n_cases_eq_flatten cks bs ty h, batch_ids_length, ?_⟩
  intro c b i hi
  exact ⟨_, batch_ids_getElem c b i hi, caseNumTokenOf_batch_id c _,
    caseNumberOf_batch_id c _⟩

/-- Witness for C1: the spec §8 end-to-end example, maxima
`{(Douglas, 2025): 42}`, batch size `{Douglas: 3}`, current year 2025. -/
theorem claim_C1_allocator_batches_witness :
    get_next_n_cases [⟨2025, "Douglas", 42⟩] [("Douglas", 3)] 2025
      = some ["D 01 JV 25 0000043", "D 01 JV 25 0000044", "D 01 JV 25 0000045"] := by
  have h := claim_C1_allocator_batches [⟨2025, "Douglas", 42⟩] [("Douglas", 3)] 2025
    (by decide)
  rw [h.1]
  decide

/-- Counterexample for C1 as frozen: the Douglas partition is qualifying
with configured batch size 3 and max 42, yet the allocator emits nothing at
all for it (the whole computation aborts with `KeyError` on the unrelated
"Chase" partition, whose county has no batch-size entry). -/
theorem claim_C1_counterexample :
    get_next_n_cases [⟨2025, "Douglas", 42⟩, ⟨2025, "Chase", 5⟩] [("Douglas", 3)] 2025
      = none := by
  decide

/-- C2, amended.  When every stored record's `Docket` is present, every
pending record's `CaseID` parses, and at least one record is pending,
`get_bounced_cases` returns exactly the (parses of the) records lacking the
success marker, in storage order and with no batch-size cap.  The claim as
frozen is false in two places: a record whose `Docket` is absent/null is
not returned — Python's `"Case Summary" not in d["Docket"]` raises
`TypeError`, aborting the whole selection (see the counterexample) — and
when no record is pending the selection does not return an empty list
either: `pl.DataFrame({"parsed": []})` builds a `Null`-dtype column whose
`.unnest` raises `SchemaError` (second conjunct). -/
theorem claim_C2_select_pending (data : List StoredRecord) (today : Int)
    (hdoc : ∀ d ∈ data, d.Docket ≠ none)
    (hparse : ∀ d ∈ data, pending_filter d = true →
      (parse_case_info d.CaseID COUNTY_MAP).isSome = true) :
    (select_pending_spec data ≠ [] →
      ∃ out, get_bounced_cases data today = some out
        ∧ List.Forall₂ (fun (d : StoredRecord) (r : OutRecord) =>
            ∃ p, parse_case_info d.CaseID COUNTY_MAP = some p
              ∧ r = ⟨p.CaseYear, p.County, p.CaseNumber, today, none, none⟩)
            (select_pending_spec data) out)
    ∧ (select_pending_spec data = [] → get_bounced_cases data today = none) := by
  obtain ⟨ps, hps, hfa⟩ := bounced_parsed_characterization data hdoc hparse
  constructor
  · intro hne
    cases ps with
    | nil =>
      have hlen := List.Forall₂.length_eq hfa
      have hempty : select_pending_spec data = [] :=
        List.eq_nil_of_length_eq_zero (by simpa using hlen)
      exact absurd hempty hne
    | cons p ps' =>
      refine ⟨(p :: ps').map
          (fun q => ⟨q.CaseYear, q.County, q.CaseNumber, today, none, none⟩), ?_, ?_⟩
      · unfold get_bounced_cases
        rw [hps]
      · exact forall2_map_stamp _ _ _ hfa
  · intro hnil
    rw [hnil] at hfa
    have hempty : ps = [] := by cases hfa; rfl
    subst hempty
    unfold get_bounced_cases
    rw [hps]

/-- Witness for C2: a marker record and a pending record with a present
docket; the selection list is nonempty and the selector returns exactly the
pending one's parse. -/
theorem claim_C2_select_pending_witness :
    ∃ out, get_bounced_cases [⟨"D 01 JV 25 0000001", some "a Case Summary x", 3⟩,
        ⟨"D 01 JV 25 0000002", some "nope", 4⟩] 9 = some out
      ∧ List.Forall₂ (fun (d : StoredRecord) (r : OutRecord) =>
          ∃ p, parse_case_info d.CaseID COUNTY_MAP = some p
            ∧ r = ⟨p.CaseYear, p.County, p.CaseNumber, 9, none, none⟩)
          (select_pending_spec [⟨"D 01 JV 25 0000001", some "a Case Summary x", 3⟩,
            ⟨"D 01 JV 25 0000002", some "nope", 4⟩]) out :=
  (claim_C2_select_pending [⟨"D 01 JV 25 0000001", some "a Case Summary x", 3⟩,
    ⟨"D 01 JV 25 0000002", some "nope", 4⟩] 9 (by decide) (by decide)).1 (by decide)

/-- Counterexample for C2 as frozen (the spec's own example): the second
record has `Docket = null` and should be the one record returned, but the
selection aborts with `TypeError` and returns nothing. -/
theorem claim_C2_counterexample :
    get_bounced_cases [⟨"D 01 JV 25 0000001", some "xx Case Summary yy", 1⟩,
      ⟨"D 01 JV 25 0000002", none, 2⟩] 5 = none := by
  decide

/-- C3, confirmed.  For every well-formed CaseIdentifier (fixed court type
"D" and category "JV", county code in the fixed table, four-digit
current-era year), parsing the canonical 5-token serialization recovers the
identifier exactly: all five fields are recovered (court type and category
are the fixed constants, the county code through the inverse county map,
the case number as the numeric value of the zero-padded token). -/
theorem claim_C3_roundtrip (c : CaseIdentifier) (h : wellFormedCase c) :
    (parse_case_info (format_case c) COUNTY_MAP).map recover_case = some c := by
  obtain ⟨hct, hcat, hcode, _hylo, _hyhi⟩ := h
  rcases lookup_county_map_cases c.CountyCode hcode with ⟨hcc, hlk⟩ | ⟨hcc, hlk⟩ | ⟨hcc, hlk⟩
  · exact roundtrip_branch c "Douglas" hct hcat (by rw [hcc]; decide) (by rw [hcc]; decide)
      hlk (by rw [hcc]; decide)
  · exact roundtrip_branch c "Lancaster" hct hcat (by rw [hcc]; decide) (by rw [hcc]; decide)
      hlk (by rw [hcc]; decide)
  · exact roundtrip_branch c "Sarpy" hct hcat (by rw [hcc]; decide) (by rw [hcc]; decide)
      hlk (by rw [hcc]; decide)

/-- Witness for C3: the identifier D 01 JV 25 0000123 round-trips. -/
theorem claim_C3_roundtrip_witness :
    wellFormedCase ⟨"D", "01", "JV", 2025, 123⟩
      ∧ (parse_case_info (format_case ⟨"D", "01", "JV", 2025, 123⟩) COUNTY_MAP).map
          recover_case = some ⟨"D", "01", "JV", 2025, 123⟩ :=
  ⟨by decide, claim_C3_roundtrip ⟨"D", "01", "JV", 2025, 123⟩ (by decide)⟩

/-- C4, amended.  `parse_case_info` fails exactly when the string splits
into fewer than 5 whitespace-separated tokens or the year-suffix (4th)
token is not an integer literal; and an unrecognized county code does not
make parsing fail, it resolves the county to the sentinel "Unknown".  The
claim as frozen is false in two places (see the counterexample): a string
with more than 5 tokens does not fail (the extra tokens are ignored), and a
non-numeric case-number (5th) token does not fail (it is never validated). -/
theorem claim_C4_parse_failure (s : String) (cm : List (String × String)) :
    (parse_case_info s cm = none ↔
      ((splitWs s.data).length < 5
        ∨ ∃ t3, (splitWs s.data)[3]? = some t3 ∧ pyIntOfChars t3 = none))
    ∧ (∀ t1, (splitWs s.data)[1]? = some t1 → List.lookup (String.mk t1) cm = none →
        ∀ p, parse_case_info s cm = some p → p.County = "Unknown") := by
  rcases parse_case_info_shape s cm with ⟨t0, t1, t2, t3, t4, rest, hsp, hp⟩ | ⟨hlen, hp⟩
  · constructor
    · rw [hp]
      constructor
      · intro hnone
        right
        refine ⟨t3, by rw [hsp]; rfl, ?_⟩
        cases hto : pyIntOfChars t3 with
        | none => rfl
        | some y => rw [hto] at hnone; cases hnone
      · rintro (hlt | ⟨t3', ht3', hnone⟩)
        · rw [hsp] at hlt
          simp only [List.length_cons] at hlt
          omega
        · rw [hsp] at ht3'
          have ht3eq : t3' = t3 := by
            have : (t0 :: t1 :: t2 :: t3 :: t4 :: rest)[3]? = some t3 := rfl
            rw [this] at ht3'
            injection ht3' with h'
            exact h'.symm
          subst ht3eq
          rw [hnone]
          rfl
    · intro t1' ht1' hlk p hp'
      rw [hsp] at ht1'
      have ht1eq : t1' = t1 := by
        have : (t0 :: t1 :: t2 :: t3 :: t4 :: rest)[1]? = some t1 := rfl
        rw [this] at ht1'
        injection ht1' with h'
        exact h'.symm
      rw [ht1eq] at hlk
      rw [hp] at hp'
      cases hto : pyIntOfChars t3 with
      | none => rw [hto] at hp'; cases hp'
      | some y =>
        rw [hto, Option.map_some'] at hp'
        injection hp' with h'
        rw [← h']
        show (List.lookup (String.mk t1) cm).getD "Unknown" = "Unknown"
        rw [hlk]
        rfl
  · constructor
    · rw [hp]
      simp [hlen]
    · intro t1' ht1' hlk p hp'
      rw [hp] at hp'
      cases hp'

/-- Witness for C4: for the string "D 99 JV 25 0000001" the county code 99
is not in the table, yet parsing succeeds and resolves the county to
"Unknown". -/
theorem claim_C4_parse_failure_witness :
    (⟨2025, "Unknown", "0000001"⟩ : ParsedCase).County = "Unknown" :=
  (claim_C4_parse_failure "D 99 JV 25 0000001" COUNTY_MAP).2 ("99".data) (by decide)
    (by decide) ⟨2025, "Unknown", "0000001"⟩ (by decide)

/-- Counterexample for C4 as frozen: a 6-token string parses successfully
(the claim requires failure for anything but exactly 5 tokens), and a
non-numeric case-number token parses successfully (the claim requires
failure when it is not numeric). -/
theorem claim_C4_counterexample :
    parse_case_info "D 01 JV 25 0000123 EXTRA" COUNTY_MAP
        = some ⟨2025, "Douglas", "0000123"⟩
      ∧ parse_case_info "D 01 JV 25 abc" COUNTY_MAP = some ⟨2025, "Douglas", "abc"⟩ := by
  exact ⟨by decide, by decide⟩

/-- C5, confirmed.  A partition whose CaseYear differs from the current
year contributes nothing to the allocator's output, even if it carries a
tracked maximum: dropping all non-current-year checkpoints leaves the
result unchanged, and removing a single non-current-year checkpoint from
the head leaves the result unchanged. -/
theorem claim_C5_year_restriction :
    (∀ (cks : List Checkpoint) (bs : List (String × Nat)) (ty : Int),
      get_next_n_cases cks bs ty
        = get_next_n_cases (cks.filter (fun c => c.CaseYear == ty)) bs ty)
    ∧ (∀ (c : Checkpoint) (cks : List Checkpoint) (bs : List (String × Nat)) (ty : Int),
        c.CaseYear ≠ ty →
          get_next_n_cases (c :: cks) bs ty = get_next_n_cases cks bs ty) := by
  constructor
  · intro cks bs ty
    induction cks with
    | nil => rfl
    | cons c rest ih =>
      rw [List.filter_cons]
      by_cases h : c.CaseYear = ty
      · have hb : (c.CaseYear == ty) = true := beq_iff_eq.mpr h
        rw [hb]
        simp only [if_true]
        rw [get_next_n_cases, get_next_n_cases, if_pos h, if_pos h, ih]
      · have hb : (c.CaseYear == ty) = false := by simp [h]
        rw [hb]
        simp only [Bool.false_eq_true, if_false]
        rw [get_next_n_cases, if_neg h, ih]
  · intro c cks bs ty h
    rw [get_next_n_cases, if_neg h]

/-- Witness for C5: a 2024 partition with a tracked maximum contributes
nothing when the current year is 2025. -/
theorem claim_C5_year_restriction_witness :
    ((⟨2024, "Douglas", 42⟩ : Checkpoint).CaseYear ≠ (2025 : Int))
      ∧ get_next_n_cases [⟨2024, "Douglas", 42⟩] BATCH_SIZE 2025
          = get_next_n_cases [] BATCH_SIZE 2025 :=
  ⟨by decide, claim_C5_year_restriction.2 ⟨2024, "Douglas", 42⟩ [] BATCH_SIZE 2025 (by decide)⟩

/-- C6, amended.  The core does not isolate and skip malformed items: it
aborts the whole batch computation at the first bad one.  A stored record
with a null `Docket`, or a pending record whose `CaseID` does not parse,
makes the whole selection fail with no output for the remaining records;
and a current-year partition whose county has no batch-size entry makes the
whole allocation fail.  The claim as frozen (skip the bad item, keep the
rest) is refuted by the counterexample. -/
theorem claim_C6_abort_on_malformed :
    (∀ (data : List StoredRecord) (today : Int),
      (∃ d ∈ data, d.Docket = none
        ∨ ∃ doc, d.Docket = some doc ∧ pyInStr marker doc = false
            ∧ parse_case_info d.CaseID COUNTY_MAP = none) →
        get_bounced_cases data today = none)
    ∧ (∀ (cks : List Checkpoint) (bs : List (String × Nat)) (ty : Int) (c : Checkpoint),
        c ∈ cks → c.CaseYear = ty → List.lookup c.County bs = none →
          get_next_n_cases cks bs ty = none) :=
  ⟨get_bounced_cases_abort, fun cks bs ty c hmem hy hbs =>
    get_next_n_cases_none_of_unconfigured cks bs ty c hmem hy hbs⟩

/-- Witness for C6: a single unparseable record makes the selection fail. -/
theorem claim_C6_abort_on_malformed_witness :
    get_bounced_cases [⟨"garbage", some "no marker here", 1⟩] 5 = none :=
  claim_C6_abort_on_malformed.1 [⟨"garbage", some "no marker here", 1⟩] 5
    ⟨⟨"garbage", some "no marker here", 1⟩, List.mem_cons_self _ _,
      Or.inr ⟨"no marker here", rfl, by decide, by decide⟩⟩

/-- Counterexample for C6 as frozen: one unparseable `CaseID` in the middle
aborts the whole selection; the well-formed pending record after it yields
no output (the claim requires the remaining records to still be
processed). -/
theorem claim_C6_counterexample :
    get_bounced_cases [⟨"D 01 JV 25 0000001", some "a Case Summary b", 1⟩,
      ⟨"garbage", some "nothing here", 2⟩,
      ⟨"D 02 JV 25 0000002", some "nothing", 3⟩] 9 = none := by
  decide

/-- C7, amended.  A current-year partition whose County has no entry in the
batch-size configuration is not skipped: the lookup raises `KeyError` and
the whole allocation fails, emitting nothing for any partition.  The claim
as frozen (skip the partition, never fail) is refuted by the
counterexample. -/
theorem claim_C7_unconfigured_county (cks : List Checkpoint) (bs : List (String × Nat))
    (ty : Int) (c : Checkpoint) (hmem : c ∈ cks) (hy : c.CaseYear = ty)
    (hbs : List.lookup c.County bs = none) :
    get_next_n_cases cks bs ty = none :=
  get_next_n_cases_none_of_unconfigured cks bs ty c hmem hy hbs

/-- Witness for C7: a current-year Sarpy partition with an empty batch-size
table makes the allocation fail. -/
theorem claim_C7_unconfigured_county_witness :
    get_next_n_cases [⟨2025, "Sarpy", 5⟩] [] 2025 = none :=
  claim_C7_unconfigured_county [⟨2025, "Sarpy", 5⟩] [] 2025 ⟨2025, "Sarpy", 5⟩
    (List.mem_cons_self _ _) rfl rfl

/-- Counterexample for C7 as frozen: with the program's fixed batch-size
table, a partition for the unconfigured county "Chase" does not get
skipped — the whole allocation fails, including the configured Douglas
partition behind it. -/
theorem claim_C7_counterexample :
    get_next_n_cases [⟨2025, "Chase", 7⟩, ⟨2025, "Douglas", 42⟩] BATCH_SIZE 2025 = none := by
  decide

/-- C8, amended.  The reverse-map lookup itself never throws: a county name
absent from the inverse county map falls back to the sentinel code "00",
and — provided that county has a configured batch size — its identifiers
are emitted with county token "00" while the rest of the batch is
unaffected.  The claim as frozen is false for the program's fixed
batch-size table: an unmappable county is never configured there, so the
allocator raises `KeyError` and the whole batch (other partitions included)
is lost (see the counterexample). -/
theorem claim_C8_sentinel_code (c : Checkpoint) (rest : List Checkpoint)
    (bs : List (String × Nat)) (ty : Int) (b : Nat) (hy : c.CaseYear = ty)
    (hinv : List.lookup c.County inv_county_map = none)
    (hbs : List.lookup c.County bs = some b) :
    county_code c = "00"
    ∧ get_next_n_cases (c :: rest) bs ty
        = (get_next_n_cases rest bs ty).map (fun tail => batch_ids c b ++ tail)
    ∧ (∀ i, i < b → ∃ id, (batch_ids c b)[i]? = some id
        ∧ countyTokenOf id = some ("00".data)) := by
  have hcc : county_code c = "00" := by
    unfold county_code
    rw [hinv]
    rfl
  refine ⟨hcc, ?_, ?_⟩
  · rw [get_next_n_cases, if_pos hy, hbs]
  · intro i hi
    refine ⟨_, batch_ids_getElem c b i hi, ?_⟩
    rw [countyTokenOf_batch_id, hcc]

/-- Witness for C8: the unmappable county "Nemaha", configured with batch
size 2, yields identifiers carrying the sentinel code "00". -/
theorem claim_C8_sentinel_code_witness :
    get_next_n_cases [⟨2025, "Nemaha", 7⟩] [("Nemaha", 2)] 2025
      = some ["D 00 JV 25 0000008", "D 00 JV 25 0000009"] := by
  have h := claim_C8_sentinel_code ⟨2025, "Nemaha", 7⟩ [] [("Nemaha", 2)] 2025 2 rfl
    (by decide) (by decide)
  rw [h.2.1]
  decide

/-- Counterexample for C8 as frozen: under the program's fixed batch-size
table an unmappable county ("Nemaha") makes the allocator throw, and the
batch for the other (Douglas) partition is lost with it — the claim
requires no throw and the other partitions unaffected. -/
theorem claim_C8_counterexample :
    get_next_n_cases [⟨2025, "Nemaha", 7⟩, ⟨2025, "Douglas", 42⟩] BATCH_SIZE 2025
      = none := by
  decide

/-- C9, amended.  Every record materialized by the generator is stamped
with `TimeScraped` equal to the build-time date and `Docket = null` — and
so is every record returned by the retry selector: the selector re-stamps
`TimeScraped` with the date of the selection run.  The claim as frozen
(a retried record keeps its original generation stamp) is refuted by the
counterexample: the stored stamp is ignored and replaced. -/
theorem claim_C9_stamping :
    (∀ (cks : List Checkpoint) (bs : List (String × Nat)) (ty today : Int)
        (out : List OutRecord), get_next_n_cases_df cks bs ty today = some out →
      out.all (fun r => r.TimeScraped == today && r.Docket == none) = true)
    ∧ (∀ (data : List StoredRecord) (today : Int) (out : List OutRecord),
        get_bounced_cases data today = some out →
      out.all (fun r => r.TimeScraped == today && r.Docket == none) = true) := by
  constructor
  · intro cks bs ty today out h
    unfold get_next_n_cases_df at h
    cases hv : get_next_n_cases cks bs ty with
    | none => rw [hv] at h; cases h
    | some ids =>
      rw [hv] at h
      exact stampRows_stamps ids today out h
  · intro data today out h
    exact get_bounced_cases_stamps data today out h

/-- Witness for C9: a generated batch of two records, built on day 77, is
stamped `TimeScraped = 77` and `Docket = null` on every record. -/
theorem claim_C9_stamping_witness :
    ([⟨2025, "Douglas", "0000002", 77, none, none⟩,
      ⟨2025, "Douglas", "0000003", 77, none, none⟩] : List OutRecord).all
        (fun r => r.TimeScraped == 77 && r.Docket == none) = true :=
  claim_C9_stamping.1 [⟨2025, "Douglas", 1⟩] [("Douglas", 2)] 2025 77
    [⟨2025, "Douglas", "0000002", 77, none, none⟩,
      ⟨2025, "Douglas", "0000003", 77, none, none⟩] (by decide)

/-- Counterexample for C9 as frozen: a stored record stamped on day 100 is
selected for retry on day 200; the returned retry record carries
`TimeScraped = 200`, not the original 100 the claim requires. -/
theorem claim_C9_counterexample :
    get_bounced_cases [⟨"D 01 JV 25 0000002", some "no summary here", 100⟩] 200
        = some [⟨2025, "Douglas", "0000002", 200, none, none⟩]
      ∧ (200 : Int) ≠ 100 := by
  exact ⟨by decide, by decide⟩

/-- C10, confirmed.  For every input string with at least 5
whitespace-separated tokens whose 4th token is an integer literal,
`parse_case_info` succeeds; the result ignores the 1st and 3rd tokens and
everything after the 5th (they do not appear in the result, which holds for
all their values), returns the 5th token verbatim as `CaseNumber` with no
numeric validation, and returns `CaseYear = 2000 + int(4th token)` — hence
at least 2000 whenever that token is non-negative. -/
theorem claim_C10_lenient_parse (s : String) (cm : List (String × String))
    (t0 t1 t2 t3 t4 : List Char) (rest : List (List Char)) (k : Int)
    (hsplit : splitWs s.data = t0 :: t1 :: t2 :: t3 :: t4 :: rest)
    (hk : pyIntOfChars t3 = some k) :
    parse_case_info s cm
        = some ⟨2000 + k, (List.lookup (String.mk t1) cm).getD "Unknown", String.mk t4⟩
      ∧ (0 ≤ k → (2000 : Int) ≤ 2000 + k) := by
  constructor
  · unfold parse_case_info
    rw [hsplit]
    show (pyIntOfChars t3).map _ = _
    rw [hk]
    rfl
  · intro hnn
    omega

/-- Witness for C10: "X 01 Q 25 abc junk" has six tokens, a junk court
type, a junk category and a non-numeric case number, yet parses to year
2025, county Douglas and the verbatim token "abc". -/
theorem claim_C10_lenient_parse_witness :
    parse_case_info "X 01 Q 25 abc junk" COUNTY_MAP = some ⟨2025, "Douglas", "abc"⟩ := by
  have h := claim_C10_lenient_parse "X 01 Q 25 abc junk" COUNTY_MAP
    ("X".data) ("01".data) ("Q".data) ("25".data) ("abc".data) [("junk".data)] 25
    (by decide) (by decide)
  rw [h.1]
  decide
